import Mathlib

/-!
Shallow embedding of the pod-restart scanner (`main.go`).

The program lists pods, keeps those whose name contains `"database"`, and
for each one restarts the highest-level owning controller, deduplicating
via a `restarted` list of string keys.  The cluster API client is modelled
by an environment `ClusterEnv` of oracles (get/update/create/delete
outcomes and the poll results of the readiness wait), and every mutating
API call a run issues is collected in a trace of `ApiCall`s.
-/

namespace KubeRestart

/-- Constants from `main.go` lines 19-25.  `WaitForRestartTimeout` is in
seconds, as is `ConfigRestartInterval`. -/
def DatabaseMatch : String := "database"

def ValidNameMaxLength : Nat := 255

def WaitForRestartTimeout : Nat := 300

def ConfigRestartInterval : Nat := 2

def ConfigNameSuffixLength : Nat := 5

/-- `metav1.OwnerReference`: the fields the program reads (`Kind`, `Name`). -/
structure OwnerReference where
  kind : String
  name : String
deriving DecidableEq, Repr

/-- `v1.Pod`: the fields the program reads.  The spec/labels payload is
carried over to the replacement unchanged and never inspected, so it is
not modelled. -/
structure Pod where
  name : String
  ns : String
  ownerReferences : List OwnerReference
deriving DecidableEq, Repr

/-- One mutating call against the cluster API.  `updateReplicaSet` is a
capability of the client that the program never invokes. -/
inductive ApiCall where
  | updateDeployment (name ns : String)
  | updateStatefulSet (name ns : String)
  | updateDaemonSet (name ns : String)
  | updateReplicaSet (name ns : String)
  | createPod (name ns : String)
  | deletePod (name ns : String)
deriving DecidableEq, Repr

/-- The external cluster API, as oracles for the outcome of each call.
`rsGet` returns the owner references of a ReplicaSet (`none` = the get
fails); the `Bool` fields say whether the corresponding get/update/
create/delete succeeds; `podRunning name ns i` is the phase check of the
`i`-th poll of the readiness wait; `randSuffix` models `rand.String 4`
for a given original pod name. -/
structure ClusterEnv where
  rsGet : String → String → Option (List OwnerReference)
  depGet : String → String → Bool
  depUpdate : String → String → Bool
  stsGet : String → String → Bool
  stsUpdate : String → String → Bool
  dsGet : String → String → Bool
  dsUpdate : String → String → Bool
  podCreate : String → String → Bool
  podDelete : String → String → Bool
  podRunning : String → String → Nat → Bool
  randSuffix : String → String

/-- `strings.Contains(s, pat)`: `pat` occurs contiguously in `s`. -/
def strContains (s pat : String) : Bool :=
  decide (pat.toList <:+: s.toList)

/-- `getResourceType` (main.go 96-113): Go `switch` on the kind label. -/
def getResourceType (name : String) : String :=
  if name = "ReplicaSet" then "ReplicaSet"
  else if name = "Deployment" then "Deployment"
  else if name = "StatefulSet" then "StatefulSet"
  else if name = "DaemonSet" then "DaemonSet"
  else if name = "" then "Pod"
  else "unsupported"

/-- `restartDeployment` (main.go 115-128): get the Deployment, set the
`restartedAt` template annotation, write it back.  The trace records the
update call; the returned `Bool` is success (`error == nil`). -/
def restartDeployment (env : ClusterEnv) (name ns : String) : List ApiCall × Bool :=
  if env.depGet name ns then
    ([ApiCall.updateDeployment name ns], env.depUpdate name ns)
  else ([], false)

/-- `restartDaemonSet` (main.go 130-143). -/
def restartDaemonSet (env : ClusterEnv) (name ns : String) : List ApiCall × Bool :=
  if env.dsGet name ns then
    ([ApiCall.updateDaemonSet name ns], env.dsUpdate name ns)
  else ([], false)

/-- `restartStatefulSet` (main.go 145-158). -/
def restartStatefulSet (env : ClusterEnv) (name ns : String) : List ApiCall × Bool :=
  if env.stsGet name ns then
    ([ApiCall.updateStatefulSet name ns], env.stsUpdate name ns)
  else ([], false)

/-- The owner-reference loop of `restartReplicaSet` (main.go 202-208):
delegate to `restartDeployment` for the first owner classified as
`Deployment`; fall through to success if none is. -/
def restartReplicaSetOwners (env : ClusterEnv) (ns : String) :
    List OwnerReference → List ApiCall × Bool
  | [] => ([], true)
  | ref :: rest =>
    if getResourceType ref.kind = "Deployment" then
      restartDeployment env ref.name ns
    else restartReplicaSetOwners env ns rest

/-- `restartReplicaSet` (main.go 196-209): fetch the ReplicaSet, then run
the owner loop.  A failed get returns the error with no call issued. -/
def restartReplicaSet (env : ClusterEnv) (name ns : String) : List ApiCall × Bool :=
  match env.rsGet name ns with
  | none => ([], false)
  | some owners => restartReplicaSetOwners env ns owners

/-- `newSuffixPodName` (main.go 287-289). -/
def newSuffixPodName (name suffix : String) : String :=
  name ++ "-" ++ suffix

/-- The replacement-name computation of `restartPod` (main.go 229-235). -/
def newPodName (podName suffix : String) : String :=
  if podName.length > ValidNameMaxLength then
    newSuffixPodName (podName.take (podName.length - ConfigNameSuffixLength)) suffix
  else
    newSuffixPodName podName suffix

/-- The polling loop of `restartPod` (main.go 251-262), time-abstracted:
poll `i` happens at elapsed time `ConfigRestartInterval * i` seconds, and
the loop gives up once the elapsed time exceeds `WaitForRestartTimeout`.
The `fuel` argument only makes the recursion structural; the timeout test
fires first whenever `fuel > WaitForRestartTimeout / ConfigRestartInterval - i + 1`. -/
def waitForRunningAux (running : Nat → Bool) : Nat → Nat → Bool
  | 0, _ => false
  | fuel + 1, i =>
    if ConfigRestartInterval * i > WaitForRestartTimeout then false
    else if running i then true
    else waitForRunningAux running fuel (i + 1)

/-- The readiness wait: `true` iff some poll before the timeout sees the
running phase. -/
def waitForRunning (running : Nat → Bool) : Bool :=
  waitForRunningAux running (WaitForRestartTimeout / ConfigRestartInterval + 2) 0

/-- `restartPod` (main.go 228-265): create a clone under the suffixed
name, wait for it to reach the running phase, and only then delete the
original.  A timeout skips the delete and still returns success. -/
def restartPod (env : ClusterEnv) (pod : Pod) : List ApiCall × Bool :=
  let suffix := env.randSuffix pod.name
  let newName := newPodName pod.name suffix
  if env.podCreate newName pod.ns then
    if waitForRunning (env.podRunning newName pod.ns) then
      ([ApiCall.createPod newName pod.ns, ApiCall.deletePod pod.name pod.ns],
        env.podDelete pod.name pod.ns)
    else ([ApiCall.createPod newName pod.ns], true)
  else ([ApiCall.createPod newName pod.ns], false)

/-- `restartResource` (main.go 211-226): Go `switch` on the classified
resource type; an unmatched type returns `nil` with no call. -/
def restartResource (env : ClusterEnv) (resourceType name : String) (pod : Pod) :
    List ApiCall × Bool :=
  if resourceType = "ReplicaSet" then restartReplicaSet env name pod.ns
  else if resourceType = "Deployment" then restartDeployment env name pod.ns
  else if resourceType = "StatefulSet" then restartStatefulSet env name pod.ns
  else if resourceType = "DaemonSet" then restartDaemonSet env name pod.ns
  else if resourceType = "Pod" then restartPod env pod
  else ([], true)

/-- The composite Ledger key `fmt.Sprintf("%s|%s|%s", ownerRef.Name,
ownerRef.Kind, pod.Namespace)` (main.go 179). -/
def ledgerKey (refName refKind podNs : String) : String :=
  refName ++ "|" ++ refKind ++ "|" ++ podNs

/-- The owner-reference loop of `restartResourceFromPod` (main.go
172-191), threading the `restarted` list and accumulating the trace.
The first comparison reproduces the source's dead `== "unknown"` test
(`getResourceType` never returns that string). -/
def processOwnerRefs (env : ClusterEnv) (pod : Pod) :
    List OwnerReference → List String → List ApiCall →
    List String × List ApiCall × Bool
  | [], restarted, trace => (restarted, trace, true)
  | ref :: rest, restarted, trace =>
    let resourceType := getResourceType ref.kind
    if resourceType = "unknown" then
      processOwnerRefs env pod rest restarted trace
    else
      let mtch := ledgerKey ref.name ref.kind pod.ns
      if resourceType = "Pod" then
        processOwnerRefs env pod rest restarted trace
      else if restarted.contains mtch then
        processOwnerRefs env pod rest restarted trace
      else
        let res := restartResource env resourceType ref.name pod
        if res.2 then
          processOwnerRefs env pod rest (restarted ++ [mtch]) (trace ++ res.1)
        else (restarted, trace ++ res.1, false)

/-- `restartResourceFromPod` (main.go 160-194): the ownerless branch
restarts the pod itself and records its bare name (with no membership
check); then the owner-reference loop runs (vacuously, in that branch). -/
def restartResourceFromPod (env : ClusterEnv) (restarted : List String) (pod : Pod) :
    List String × List ApiCall × Bool :=
  if pod.ownerReferences.isEmpty then
    let res := restartResource env "Pod" "" pod
    if res.2 then
      processOwnerRefs env pod pod.ownerReferences (restarted ++ [pod.name]) res.1
    else (restarted, res.1, false)
  else
    processOwnerRefs env pod pod.ownerReferences restarted []

/-- The Target Selector inside `main`'s loop (main.go 75-79): keep the
pods whose name contains `DatabaseMatch`. -/
def selectTargets (pods : List Pod) : List Pod :=
  pods.filter (fun pod => strContains pod.name DatabaseMatch)

/-- `main`'s scan loop (main.go 75-93): per candidate, run the resolver;
collect the names of pods whose restart failed; return the final
`restarted` list, the full trace, and the error list. -/
def mainLoop (env : ClusterEnv) :
    List Pod → List String → List String × List ApiCall × List String
  | [], restarted => (restarted, [], [])
  | pod :: rest, restarted =>
    if strContains pod.name DatabaseMatch then
      let res := restartResourceFromPod env restarted pod
      let tail := mainLoop env rest res.1
      (tail.1, res.2.1 ++ tail.2.1,
        if res.2.2 then tail.2.2 else pod.name :: tail.2.2)
    else mainLoop env rest restarted

/-- Running the resolver on two pods in sequence, starting from an empty
Ledger; returns the combined trace. -/
def restartTwice (env : ClusterEnv) (pa pb : Pod) : List ApiCall :=
  let r1 := restartResourceFromPod env [] pa
  let r2 := restartResourceFromPod env r1.1 pb
  r1.2.1 ++ r2.2.1

end KubeRestart

namespace KubeRestart

/-- A cluster in which every API call fails and no resource exists. -/
def idleEnv : ClusterEnv where
  rsGet := fun _ _ => none
  depGet := fun _ _ => false
  depUpdate := fun _ _ => false
  stsGet := fun _ _ => false
  stsUpdate := fun _ _ => false
  dsGet := fun _ _ => false
  dsUpdate := fun _ _ => false
  podCreate := fun _ _ => false
  podDelete := fun _ _ => false
  podRunning := fun _ _ _ => false
  randSuffix := fun _ => ""

/-- A cluster with two ReplicaSets `rs1`, `rs2` in namespace `ns`, both
owned by the Deployment `D`; every call succeeds, every pod is running,
and the random token is `"abcd"`. -/
def envTwoRS : ClusterEnv where
  rsGet := fun n ns =>
    if ns = "ns" ∧ (n = "rs1" ∨ n = "rs2") then some [⟨"Deployment", "D"⟩] else none
  depGet := fun _ _ => true
  depUpdate := fun _ _ => true
  stsGet := fun _ _ => true
  stsUpdate := fun _ _ => true
  dsGet := fun _ _ => true
  dsUpdate := fun _ _ => true
  podCreate := fun _ _ => true
  podDelete := fun _ _ => true
  podRunning := fun _ _ _ => true
  randSuffix := fun _ => "abcd"

/-- A 255-character pod name. -/
def name255 : String := String.mk (List.replicate 255 'a')

/-- A 256-character pod name. -/
def name256 : String := String.mk (List.replicate 256 'a')

/-- C9: a pod is selected iff its name literally contains the match
substring `"database"`, and the selected candidates are a sublist of the
input (relative order preserved). -/
theorem C9_selector (pods : List Pod) (p : Pod) :
    (p ∈ selectTargets pods ↔ p ∈ pods ∧ DatabaseMatch.toList <:+: p.name.toList) ∧
    List.Sublist (selectTargets pods) pods := by
  constructor
  · simp [selectTargets, List.mem_filter, strContains]
  · exact List.filter_sublist pods

/-- C2: evaluating the resolver on a pod whose owner kind `"Job"` is
outside the supported set.  `getResourceType` classifies it as
`"unsupported"`, but the skip test compares against `"unknown"`, which
never matches; the owner is therefore not skipped: no restart call is
issued (empty trace), yet the composite key `"j|Job|ns"` is recorded in
the Ledger, contradicting the claim that no key is recorded. -/
theorem C2_unsupported_kind_records_key :
    restartResourceFromPod idleEnv [] ⟨"database-p", "ns", [⟨"Job", "j"⟩]⟩
      = (["j|Job|ns"], [], true) := by
  decide

set_option maxRecDepth 20000 in
/-- C5: a 255-character original name passes the `> ValidNameMaxLength`
test, so no truncation happens and the replacement name has 260
characters, exceeding the platform maximum of 255. -/
theorem C5_replacement_name_exceeds_max :
    (newPodName name255 "abcd").length = 260 ∧
    ValidNameMaxLength < (newPodName name255 "abcd").length := by
  constructor <;> decide

/-- C7: shape of the replacement name.  With a 4-character token: a name
of length at most 255 gets `name ++ "-" ++ token`; a longer name is first
truncated by 5 characters, so the result's length equals the original's. -/
theorem C7_replacement_name (podName suffix : String) (hs : suffix.length = 4) :
    (podName.length ≤ ValidNameMaxLength →
      newPodName podName suffix = podName ++ "-" ++ suffix) ∧
    (ValidNameMaxLength < podName.length →
      newPodName podName suffix
        = podName.take (podName.length - ConfigNameSuffixLength) ++ "-" ++ suffix ∧
      (newPodName podName suffix).length = podName.length) := by
  constructor
  · intro h
    have hneg : ¬ (podName.length > ValidNameMaxLength) := by omega
    simp [newPodName, newSuffixPodName, hneg]
  · intro h
    have hif : newPodName podName suffix
        = podName.take (podName.length - ConfigNameSuffixLength) ++ "-" ++ suffix := by
      simp [newPodName, newSuffixPodName, h]
    refine ⟨hif, ?_⟩
    rw [hif]
    obtain ⟨l⟩ := podName
    have h' : ValidNameMaxLength < l.length := by simpa using h
    simp only [String.take_eq, String.length_append, String.length_mk,
      List.length_take, hs, show ("-" : String).length = 1 from rfl]
    simp only [ValidNameMaxLength, ConfigNameSuffixLength] at h' ⊢
    omega

set_option maxRecDepth 20000 in
/-- C7 witness: both branches at concrete names with the token `"wxyz"`. -/
theorem C7_witness :
    newPodName "db" "wxyz" = "db" ++ "-" ++ "wxyz" ∧
    (newPodName name256 "wxyz").length = name256.length :=
  ⟨(C7_replacement_name "db" "wxyz" rfl).1 (by decide),
    ((C7_replacement_name name256 "wxyz" rfl).2 (by decide)).2⟩

end KubeRestart

namespace KubeRestart

/-- A cluster in which pod creation succeeds but the replacement never
reaches the running phase. -/
def envNeverRunning : ClusterEnv where
  rsGet := fun _ _ => none
  depGet := fun _ _ => false
  depUpdate := fun _ _ => false
  stsGet := fun _ _ => false
  stsUpdate := fun _ _ => false
  dsGet := fun _ _ => false
  dsUpdate := fun _ _ => false
  podCreate := fun _ _ => true
  podDelete := fun _ _ => true
  podRunning := fun _ _ _ => false
  randSuffix := fun _ => "wxyz"

/-- A cluster holding a ReplicaSet with no owner references at all (in
particular, no Deployment owner); every other resource is absent. -/
def envRsNoDep : ClusterEnv where
  rsGet := fun _ _ => some []
  depGet := fun _ _ => false
  depUpdate := fun _ _ => false
  stsGet := fun _ _ => false
  stsUpdate := fun _ _ => false
  dsGet := fun _ _ => false
  dsUpdate := fun _ _ => false
  podCreate := fun _ _ => false
  podDelete := fun _ _ => false
  podRunning := fun _ _ _ => false
  randSuffix := fun _ => ""

theorem waitForRunningAux_eq_false (running : Nat → Bool)
    (h : ∀ i, running i = false) : ∀ fuel i, waitForRunningAux running fuel i = false := by
  intro fuel
  induction fuel with
  | zero => intro i; rfl
  | succ n ih =>
    intro i
    unfold waitForRunningAux
    rw [h i]
    split <;> simp [ih]

/-- C6: if the replacement never reaches the running phase, `restartPod`
returns success after the timeout, the only mutating call in the trace is
the creation of the replacement, and no delete is ever issued: original
and replacement both remain. -/
theorem C6_timeout_returns_success_without_delete (env : ClusterEnv) (pod : Pod)
    (hcreate : env.podCreate (newPodName pod.name (env.randSuffix pod.name)) pod.ns = true)
    (hrun : ∀ i,
      env.podRunning (newPodName pod.name (env.randSuffix pod.name)) pod.ns i = false) :
    restartPod env pod
      = ([ApiCall.createPod (newPodName pod.name (env.randSuffix pod.name)) pod.ns], true) := by
  simp only [restartPod, waitForRunning]
  simp [hcreate, waitForRunningAux_eq_false _ hrun]

/-- C6 witness: a concrete ownerless pod whose replacement never runs. -/
theorem C6_witness :
    restartPod envNeverRunning ⟨"database-c", "ns", []⟩
      = ([ApiCall.createPod
            (newPodName "database-c" (envNeverRunning.randSuffix "database-c")) "ns"], true) :=
  C6_timeout_returns_success_without_delete envNeverRunning ⟨"database-c", "ns", []⟩
    rfl (fun _ => rfl)

theorem getResourceType_eq_dep {k : String} :
    getResourceType k = "Deployment" ↔ k = "Deployment" := by
  unfold getResourceType
  split_ifs with h1 h2 h3 h4 h5
  · subst h1; decide
  · subst h2; simp
  · subst h3; decide
  · subst h4; decide
  · subst h5; decide
  · exact iff_of_false (by decide) h2

theorem restartReplicaSetOwners_no_dep (env : ClusterEnv) (ns : String) :
    ∀ owners : List OwnerReference, (∀ o ∈ owners, o.kind ≠ "Deployment") →
      restartReplicaSetOwners env ns owners = ([], true)
  | [], _ => rfl
  | ref :: rest, h => by
    unfold restartReplicaSetOwners
    rw [if_neg fun hc => h ref (by simp) (getResourceType_eq_dep.mp hc)]
    exact restartReplicaSetOwners_no_dep env ns rest fun o ho => h o (by simp [ho])

theorem restartReplicaSetOwners_first_dep (env : ClusterEnv) (ns d : String) :
    ∀ (pre post : List OwnerReference), (∀ o ∈ pre, o.kind ≠ "Deployment") →
      restartReplicaSetOwners env ns (pre ++ OwnerReference.mk "Deployment" d :: post)
        = restartDeployment env d ns
  | [], post, _ => by
    simp [restartReplicaSetOwners, getResourceType]
  | ref :: pre, post, h => by
    simp only [List.cons_append]
    unfold restartReplicaSetOwners
    rw [if_neg fun hc => h ref (by simp) (getResourceType_eq_dep.mp hc)]
    exact restartReplicaSetOwners_first_dep env ns d pre post fun o ho => h o (by simp [ho])

theorem restartDeployment_no_rs_update (env : ClusterEnv) (name ns m nsb : String) :
    ApiCall.updateReplicaSet m nsb ∉ (restartDeployment env name ns).1 := by
  unfold restartDeployment
  split <;> simp

theorem restartReplicaSetOwners_no_rs_update (env : ClusterEnv) (ns m nsb : String) :
    ∀ owners, ApiCall.updateReplicaSet m nsb ∉ (restartReplicaSetOwners env ns owners).1
  | [] => by simp [restartReplicaSetOwners]
  | ref :: rest => by
    unfold restartReplicaSetOwners
    split
    · exact restartDeployment_no_rs_update env ref.name ns m nsb
    · exact restartReplicaSetOwners_no_rs_update env ns m nsb rest

theorem restartReplicaSet_no_rs_update (env : ClusterEnv) (name ns m nsb : String) :
    ApiCall.updateReplicaSet m nsb ∉ (restartReplicaSet env name ns).1 := by
  unfold restartReplicaSet
  split
  · simp
  · exact restartReplicaSetOwners_no_rs_update env ns m nsb _

/-- C8: `restartReplicaSet` propagates a failed get with no call; when the
ReplicaSet has no owner of kind `Deployment` it is a silent no-op (empty
trace, success); when it has one, it delegates to `restartDeployment` on
the first such owner; and it never issues an update against the
ReplicaSet itself. -/
theorem C8_replicaset_escalation (env : ClusterEnv) (name ns : String) :
    (env.rsGet name ns = none → restartReplicaSet env name ns = ([], false)) ∧
    (∀ owners, env.rsGet name ns = some owners →
      (∀ o ∈ owners, o.kind ≠ "Deployment") →
      restartReplicaSet env name ns = ([], true)) ∧
    (∀ pre d post, env.rsGet name ns = some (pre ++ OwnerReference.mk "Deployment" d :: post) →
      (∀ o ∈ pre, o.kind ≠ "Deployment") →
      restartReplicaSet env name ns = restartDeployment env d ns) ∧
    (∀ m nsb, ApiCall.updateReplicaSet m nsb ∉ (restartReplicaSet env name ns).1) := by
  refine ⟨fun h => by simp [restartReplicaSet, h], ?_, ?_, ?_⟩
  · intro owners h hnd
    simp [restartReplicaSet, h, restartReplicaSetOwners_no_dep env ns owners hnd]
  · intro pre d post h hnd
    simp [restartReplicaSet, h, restartReplicaSetOwners_first_dep env ns d pre post hnd]
  · exact restartReplicaSet_no_rs_update env name ns

/-- C8 witness: a ReplicaSet whose owner list is empty is a silent no-op. -/
theorem C8_witness : restartReplicaSet envRsNoDep "rs" "ns" = ([], true) :=
  (C8_replicaset_escalation envRsNoDep "rs" "ns").2.1 [] rfl (by simp)

/-- C10: a pod owned by a ReplicaSet that has no Deployment owner: the
resolver returns success with an empty trace (zero mutating calls), yet
still records the composite key of the ReplicaSet in the Ledger. -/
theorem C10_rs_without_deployment_records_key (env : ClusterEnv)
    (restarted : List String) (rs ns podName : String) (owners : List OwnerReference)
    (hrs : env.rsGet rs ns = some owners)
    (hnodep : ∀ o ∈ owners, o.kind ≠ "Deployment")
    (habs : restarted.contains (ledgerKey rs "ReplicaSet" ns) = false) :
    restartResourceFromPod env restarted ⟨podName, ns, [⟨"ReplicaSet", rs⟩]⟩
      = (restarted ++ [ledgerKey rs "ReplicaSet" ns], [], true) := by
  have habs2 : ledgerKey rs "ReplicaSet" ns ∉ restarted := by simpa using habs
  simp [restartResourceFromPod, processOwnerRefs, restartResource, restartReplicaSet,
    getResourceType, hrs, habs2, restartReplicaSetOwners_no_dep env ns owners hnodep]

/-- C10 witness: concrete pod owned by a ReplicaSet with no owners. -/
theorem C10_witness :
    restartResourceFromPod envRsNoDep [] ⟨"database-p", "ns", [⟨"ReplicaSet", "rs"⟩]⟩
      = ([ledgerKey "rs" "ReplicaSet" "ns"], [], true) :=
  C10_rs_without_deployment_records_key envRsNoDep [] "rs" "ns" "database-p" []
    rfl (by simp) rfl

end KubeRestart

namespace KubeRestart

/-- A cluster in which Deployment gets succeed but Deployment updates
fail; everything else is absent. -/
def envUpdateFails : ClusterEnv where
  rsGet := fun _ _ => none
  depGet := fun _ _ => true
  depUpdate := fun _ _ => false
  stsGet := fun _ _ => false
  stsUpdate := fun _ _ => false
  dsGet := fun _ _ => false
  dsUpdate := fun _ _ => false
  podCreate := fun _ _ => false
  podDelete := fun _ _ => false
  podRunning := fun _ _ _ => false
  randSuffix := fun _ => ""

/-- C1 counterexample: two pods owned by the distinct ReplicaSets `rs1`
and `rs2`, both owned by the same Deployment `D`.  The Ledger keys differ
(`rs1|ReplicaSet|ns` vs `rs2|ReplicaSet|ns`), so the dedup does not fire
and `D` receives two annotation-update calls, not one. -/
theorem C1_counterexample :
    restartTwice envTwoRS ⟨"database-1", "ns", [⟨"ReplicaSet", "rs1"⟩]⟩
        ⟨"database-2", "ns", [⟨"ReplicaSet", "rs2"⟩]⟩
      = [ApiCall.updateDeployment "D" "ns", ApiCall.updateDeployment "D" "ns"] ∧
    (restartTwice envTwoRS ⟨"database-1", "ns", [⟨"ReplicaSet", "rs1"⟩]⟩
        ⟨"database-2", "ns", [⟨"ReplicaSet", "rs2"⟩]⟩).count
        (ApiCall.updateDeployment "D" "ns") ≠ 1 := by
  decide

/-- C1 amended: when the two pods are owned by the same Deployment via
the SAME ReplicaSet, the composite key dedup fires and `D` receives
exactly one annotation-update call, in either processing order. -/
theorem C1_same_replicaset_single_update (env : ClusterEnv) (rs D ns n1 n2 : String)
    (hrs : env.rsGet rs ns = some [OwnerReference.mk "Deployment" D])
    (hget : env.depGet D ns = true) (hupd : env.depUpdate D ns = true) :
    restartTwice env ⟨n1, ns, [⟨"ReplicaSet", rs⟩]⟩ ⟨n2, ns, [⟨"ReplicaSet", rs⟩]⟩
      = [ApiCall.updateDeployment D ns] ∧
    restartTwice env ⟨n2, ns, [⟨"ReplicaSet", rs⟩]⟩ ⟨n1, ns, [⟨"ReplicaSet", rs⟩]⟩
      = [ApiCall.updateDeployment D ns] := by
  have main : ∀ a b : String,
      restartTwice env ⟨a, ns, [⟨"ReplicaSet", rs⟩]⟩ ⟨b, ns, [⟨"ReplicaSet", rs⟩]⟩
        = [ApiCall.updateDeployment D ns] := by
    intro a b
    simp [restartTwice, restartResourceFromPod, processOwnerRefs, restartResource,
      restartReplicaSet, restartReplicaSetOwners, restartDeployment, getResourceType,
      ledgerKey, hrs, hget, hupd]
  exact ⟨main n1 n2, main n2 n1⟩

/-- C1 witness: the amended theorem at a concrete cluster. -/
theorem C1_witness :
    restartTwice envTwoRS ⟨"database-1", "ns", [⟨"ReplicaSet", "rs1"⟩]⟩
        ⟨"database-2", "ns", [⟨"ReplicaSet", "rs1"⟩]⟩
      = [ApiCall.updateDeployment "D" "ns"] :=
  (C1_same_replicaset_single_update envTwoRS "rs1" "D" "ns" "database-1" "database-2"
    rfl rfl rfl).1

/-- C3: the Ledger membership test precedes the mutating call and
insertion happens only after success.  With a failing Deployment update:
the first pod's attempt issues the call, fails, and leaves the Ledger
unchanged; a second pod with the same owner retries the very same call;
and whenever the key is already present, no call at all is issued. -/
theorem C3_check_before_call_insert_after_success (env : ClusterEnv)
    (D ns n1 n2 : String) (restarted : List String)
    (hget : env.depGet D ns = true) (hupd : env.depUpdate D ns = false)
    (habs : restarted.contains (ledgerKey D "Deployment" ns) = false) :
    restartResourceFromPod env restarted ⟨n1, ns, [⟨"Deployment", D⟩]⟩
      = (restarted, [ApiCall.updateDeployment D ns], false) ∧
    restartResourceFromPod env
        (restartResourceFromPod env restarted ⟨n1, ns, [⟨"Deployment", D⟩]⟩).1
        ⟨n2, ns, [⟨"Deployment", D⟩]⟩
      = (restarted, [ApiCall.updateDeployment D ns], false) ∧
    (∀ r2 : List String, r2.contains (ledgerKey D "Deployment" ns) = true →
      restartResourceFromPod env r2 ⟨n1, ns, [⟨"Deployment", D⟩]⟩ = (r2, [], true)) := by
  have habs2 : ledgerKey D "Deployment" ns ∉ restarted := by simpa using habs
  have main : ∀ a : String,
      restartResourceFromPod env restarted ⟨a, ns, [⟨"Deployment", D⟩]⟩
        = (restarted, [ApiCall.updateDeployment D ns], false) := by
    intro a
    simp [restartResourceFromPod, processOwnerRefs, restartResource, restartDeployment,
      getResourceType, hget, hupd, habs2]
  refine ⟨main n1, ?_, ?_⟩
  · rw [main n1]; exact main n2
  · intro r2 hr2
    have hr2m : ledgerKey D "Deployment" ns ∈ r2 := by simpa using hr2
    simp [restartResourceFromPod, processOwnerRefs, getResourceType, hr2m]

/-- C3 witness: concrete run where the Deployment update fails. -/
theorem C3_witness :
    restartResourceFromPod envUpdateFails [] ⟨"database-1", "ns", [⟨"Deployment", "D"⟩]⟩
      = ([], [ApiCall.updateDeployment "D" "ns"], false) :=
  (C3_check_before_call_insert_after_success envUpdateFails "D" "ns"
    "database-1" "database-2" [] rfl rfl rfl).1

/-- C4 counterexample: two ownerless pods named `database-a` in different
namespaces.  The bare name is appended to the Ledger without a membership
check, so it ends up in the Ledger twice. -/
theorem C4_counterexample :
    (mainLoop envTwoRS [⟨"database-a", "ns1", []⟩, ⟨"database-a", "ns2", []⟩] []).1
      = ["database-a", "database-a"] ∧
    (mainLoop envTwoRS [⟨"database-a", "ns1", []⟩, ⟨"database-a", "ns2", []⟩] []).1.count
        "database-a" ≠ 1 := by
  decide

theorem processOwnerRefs_nodup (env : ClusterEnv) (pod : Pod) :
    ∀ (refs : List OwnerReference) (restarted : List String) (trace : List ApiCall),
      restarted.Nodup → (processOwnerRefs env pod refs restarted trace).1.Nodup
  | [], restarted, trace, h => h
  | ref :: rest, restarted, trace, h => by
    simp only [processOwnerRefs]
    split
    · exact processOwnerRefs_nodup env pod rest restarted trace h
    · split
      · exact processOwnerRefs_nodup env pod rest restarted trace h
      · split
        · exact processOwnerRefs_nodup env pod rest restarted trace h
        · split
          · apply processOwnerRefs_nodup
            rename_i hnc _
            have hnotmem : ledgerKey ref.name ref.kind pod.ns ∉ restarted := by
              simpa using hnc
            rw [← List.concat_eq_append]
            exact List.Nodup.concat hnotmem h
          · exact h

theorem restartResourceFromPod_nodup (env : ClusterEnv) (restarted : List String)
    (pod : Pod) (howners : pod.ownerReferences ≠ []) (h : restarted.Nodup) :
    (restartResourceFromPod env restarted pod).1.Nodup := by
  unfold restartResourceFromPod
  rw [if_neg (by simpa [List.isEmpty_iff] using howners)]
  exact processOwnerRefs_nodup env pod pod.ownerReferences restarted [] h

theorem mainLoop_nodup (env : ClusterEnv) :
    ∀ (pods : List Pod) (restarted : List String),
      (∀ p ∈ pods, p.ownerReferences ≠ []) → restarted.Nodup →
      (mainLoop env pods restarted).1.Nodup
  | [], _, _, hnd => hnd
  | pod :: rest, restarted, howned, hnd => by
    simp only [mainLoop]
    split
    · exact mainLoop_nodup env rest _ (fun p hp => howned p (by simp [hp]))
        (restartResourceFromPod_nodup env restarted pod (howned pod (by simp)) hnd)
    · exact mainLoop_nodup env rest restarted (fun p hp => howned p (by simp [hp])) hnd

/-- C4 amended: composite keys are only ever inserted behind a membership
check, so as long as every processed pod has owner references the Ledger
never holds a duplicate entry; only the bare names of ownerless pods can
repeat (as the counterexample shows). -/
theorem C4_no_duplicates_when_all_pods_owned (env : ClusterEnv) (pods : List Pod)
    (restarted : List String) (howned : ∀ p ∈ pods, p.ownerReferences ≠ [])
    (hnd : restarted.Nodup) : (mainLoop env pods restarted).1.Nodup :=
  mainLoop_nodup env pods restarted howned hnd

/-- C4 witness: a run over two owned pods starting from an empty Ledger. -/
theorem C4_witness :
    (mainLoop envTwoRS [⟨"database-1", "ns", [⟨"ReplicaSet", "rs1"⟩]⟩,
        ⟨"database-2", "ns", [⟨"ReplicaSet", "rs2"⟩]⟩] []).1.Nodup :=
  C4_no_duplicates_when_all_pods_owned envTwoRS
    [⟨"database-1", "ns", [⟨"ReplicaSet", "rs1"⟩]⟩,
      ⟨"database-2", "ns", [⟨"ReplicaSet", "rs2"⟩]⟩] []
    (by simp) List.nodup_nil

end KubeRestart
